import Mathlib

/-!
Verification development for the DC-project content-moderation backend.

The system is a distributed job pipeline: an ingestion endpoint (POST
/api/posts) validates a submission, persists a job record with status
pending and publishes a work item to a durable queue; worker processes
consume one message at a time, first write status processing, run the
classifier (a deny-list rule followed by an external Perspective API
scoring call with fixed thresholds), write the resulting status back to
the store, and then acknowledge the message.

The definitions below are a shallow embedding of that code: file or
database state is passed explicitly as a list of records, the external
scoring call is an explicit optional-scores argument (none stands for a
timeout or error response), durable write success is an explicit boolean,
and timestamps are natural numbers.  Scores are rationals; the JavaScript
comparisons on them are order comparisons that the rational model mirrors
exactly at the literals involved.
-/

namespace ContentModeration

/-- Character-list prefix test: the first list is an initial segment of the
second. -/
def startsWithL : List Char → List Char → Bool
  | [], _ => true
  | _ :: _, [] => false
  | p :: ps, c :: cs => p == c && startsWithL ps cs

/-- Occurrence of the pattern as a contiguous run inside the list; this is
the semantics of the JavaScript String.prototype.includes test used by the
deny-list rule. -/
def occursInL (pat : List Char) : List Char → Bool
  | [] => pat.isEmpty
  | c :: cs => startsWithL pat (c :: cs) || occursInL pat cs

/-- String containment, content.includes(keyword). -/
def strOccursIn (pat s : String) : Bool := occursInL pat.toList s.toList

/-- Character-wise lower-casing of a string, the semantics of the
JavaScript toLowerCase call on the ASCII content involved here. -/
def lowerStr (s : String) : String := String.mk (s.toList.map Char.toLower)

/-- A job record as stored in the posts store.  Fields follow the object
built by POST /api/posts and mutated by updatePostStatus; createdAt and
completedAt instants are modelled as natural numbers. -/
structure Post where
  id : String
  title : String
  content : String
  author : String
  status : String
  server : String
  worker : Option String
  moderationDetails : Option String
  createdAt : Nat
  processingTime : Option Nat
  toxicityScore : Option ℚ
  reviewReason : Option String
  category : String
  completedAt : Option Nat
deriving DecidableEq, Repr

/-- The three per-attribute summary scores returned by a successful
Perspective API call. -/
structure Scores where
  toxicity : ℚ
  insult : ℚ
  profanity : ℚ
deriving DecidableEq, Repr

/-- The value returned by moderateContent in worker.js. -/
structure Decision where
  status : String
  moderationDetails : String
  toxicityScore : Option ℚ
  reviewReason : Option String
deriving DecidableEq, Repr

/-- Two-digit decimal rendering of a rational score, standing for the
JavaScript toFixed(2) formatting used only inside moderation detail
strings. -/
def fixed2 (q : ℚ) : String :=
  let n : Int := ⌊q * 100 + 1 / 2⌋
  let sign := if n < 0 then "-" else ""
  let m := n.natAbs
  sign ++ toString (m / 100) ++ "." ++
    (if m % 100 < 10 then "0" else "") ++ toString (m % 100)

/-- The deny list hard-coded in moderateContent in worker.js. -/
def blockedKeywords : List String := ["fuck", "nigger"]

/-- Deny-list hit: some configured blocked keyword occurs in the
lower-cased content. -/
def denyHit (content : String) : Bool :=
  blockedKeywords.any (fun keyword => strOccursIn keyword (lowerStr content))

/-- moderateContent from worker.js.  The external Perspective API call is
modelled by the apiResult argument: some scores stands for a successful
response, none for a timeout or error response (the catch branch).  The
boolean component records whether the external call was reached, so the
deny-list short-circuit is observable. -/
def moderateContent (content : String) (apiResult : Option Scores) :
    Decision × Bool :=
  let lowercaseContent := lowerStr content
  let foundKeyword :=
    blockedKeywords.find? (fun keyword => strOccursIn keyword lowercaseContent)
  match foundKeyword with
  | some keyword =>
      ({ status := "rejected"
         moderationDetails := "Content rejected due to egregious keyword: " ++ keyword
         toxicityScore := none
         reviewReason := none }, false)
  | none =>
    match apiResult with
    | none =>
        ({ status := "needs_review"
           moderationDetails := "Failed to analyze content with Perspective API"
           toxicityScore := none
           reviewReason := some "API error, requires human review" }, true)
    | some scores =>
        let toxicityScore := scores.toxicity
        let insultScore := scores.insult
        let profanityScore := scores.profanity
        let maxScore := max toxicityScore (max insultScore profanityScore)
        let tail := "toxicity=" ++ fixed2 toxicityScore ++ ", insult=" ++
          fixed2 insultScore ++ ", profanity=" ++ fixed2 profanityScore
        if maxScore > 4 / 5 then
          ({ status := "rejected"
             moderationDetails := "Content rejected due to high scores: " ++ tail
             toxicityScore := some maxScore
             reviewReason := none }, true)
        else if maxScore ≥ 1 / 2 then
          ({ status := "needs_review"
             moderationDetails := "Content flagged for human review: " ++ tail
             toxicityScore := some maxScore
             reviewReason := some "Borderline content requiring human evaluation" }, true)
        else
          ({ status := "approved"
             moderationDetails := "Content approved: " ++ tail
             toxicityScore := some maxScore
             reviewReason := none }, true)

/-- JavaScript truthiness of an optional string argument: null and the
empty string are falsy. -/
def truthyStr : Option String → Bool
  | none => false
  | some s => !(s == "")

/-- JavaScript truthiness of an optional number argument: null and 0 are
falsy. -/
def truthyNat : Option Nat → Bool
  | none => false
  | some n => !(n == 0)

/-- The field rewrites updatePostStatus performs on the matched record in
worker.js: status and worker are always overwritten; moderationDetails,
processingTime and reviewReason only when the argument is truthy;
toxicityScore whenever the argument is not null; completedAt is stamped on
approved and rejected and otherwise left as it was. -/
def applyUpdate (p : Post) (status workerId : String)
    (moderationDetails : Option String) (processingTime : Option Nat)
    (toxicityScore : Option ℚ) (reviewReason : Option String) (now : Nat) :
    Post :=
  { p with
    status := status
    worker := some workerId
    moderationDetails :=
      if truthyStr moderationDetails then moderationDetails else p.moderationDetails
    processingTime :=
      if truthyNat processingTime then processingTime else p.processingTime
    toxicityScore :=
      if toxicityScore.isSome then toxicityScore else p.toxicityScore
    reviewReason :=
      if truthyStr reviewReason then reviewReason else p.reviewReason
    completedAt :=
      if status == "approved" || status == "rejected" then some now
      else p.completedAt }

/-- updatePostStatus from worker.js as a pure store transformer: the first
record whose id matches (the findIndex semantics) is rewritten in place via
applyUpdate; when no record matches, nothing is written and the store is
returned untouched. -/
def updatePostStatus (postId status workerId : String)
    (moderationDetails : Option String) (processingTime : Option Nat)
    (toxicityScore : Option ℚ) (reviewReason : Option String) (now : Nat) :
    List Post → List Post
  | [] => []
  | p :: ps =>
    if p.id == postId then
      applyUpdate p status workerId moderationDetails processingTime
        toxicityScore reviewReason now :: ps
    else
      p :: updatePostStatus postId status workerId moderationDetails
        processingTime toxicityScore reviewReason now ps

/-- Point lookup of a job record by id (first match). -/
def lookupPost (posts : List Post) (postId : String) : Option Post :=
  posts.find? (fun p => p.id == postId)

/-- One round of the consume handler registered in connectAndConsume in
worker.js: write status processing, run moderateContent, write the decided
status with details, duration, score and review reason, then acknowledge.
A durable write that fails leaves the store contents unchanged, and
updatePostStatus catches the write error internally, so control always
reaches channel.ack; writeOk1 and writeOk2 model whether the two durable
writes succeed.  The result is the final store and whether the message was
acknowledged. -/
def handleMessage (posts : List Post) (msgId msgContent workerId : String)
    (apiResult : Option Scores) (writeOk1 writeOk2 : Bool)
    (t1 dur : Nat) : List Post × Bool :=
  let posts1 :=
    if writeOk1 then
      updatePostStatus msgId "processing" workerId none none none none t1 posts
    else posts
  let d := (moderateContent msgContent apiResult).1
  let posts2 :=
    if writeOk2 then
      updatePostStatus msgId d.status workerId (some d.moderationDetails)
        (some dur) d.toxicityScore d.reviewReason (t1 + dur) posts1
    else posts1
  (posts2, true)

/-- Body of a POST /api/posts request; each field may be absent. -/
structure SubmitReq where
  title : Option String
  content : Option String
  author : Option String
  server : Option String
  category : Option String
deriving DecidableEq, Repr

/-- HTTP outcome of POST /api/posts: 400 with an error message, 500 when
the durable write fails, or 201 with the created record. -/
inductive SubmitResult
  | badRequest (error : String)
  | serverError (error : String)
  | created (post : Post)
deriving DecidableEq, Repr

/-- The POST /api/posts route of the ingestion server: validate that
title, content and author are truthy, build the record with a fresh id and
status pending, persist it, then publish to the queue when the channel
handle is set (otherwise only a warning is logged).  newId stands for the
uuidv4() value, now for the creation instant, writeOk for writePosts
succeeding and channelAvailable for the RabbitMQ channel being set.
Returns the HTTP outcome, the resulting store, and whether a message was
published.  mkPost is the record object the route constructs before
persisting it. -/
def mkPost (req : SubmitReq) (newId : String) (now : Nat) : Post :=
  { id := newId
    title := req.title.getD ""
    content := req.content.getD ""
    author := req.author.getD ""
    status := "pending"
    server := if truthyStr req.server then req.server.getD "" else "server1"
    worker := none
    moderationDetails := none
    createdAt := now
    processingTime := none
    toxicityScore := none
    reviewReason := none
    category := if truthyStr req.category then req.category.getD "" else "general"
    completedAt := none }

def submit (req : SubmitReq) (newId : String) (now : Nat)
    (writeOk channelAvailable : Bool) (posts : List Post) :
    SubmitResult × List Post × Bool :=
  if !(truthyStr req.title && truthyStr req.content && truthyStr req.author) then
    (SubmitResult.badRequest "Title, content, and author are required", posts, false)
  else
    let post : Post := mkPost req newId now
    if !writeOk then
      (SubmitResult.serverError "Failed to add post", posts, false)
    else
      (SubmitResult.created post, posts ++ [post], channelAvailable)

/-- A concrete sample record, as created by a valid submission. -/
def samplePost : Post :=
  { id := "job-1"
    title := "t"
    content := "this is great"
    author := "a"
    status := "pending"
    server := "server1"
    worker := none
    moderationDetails := none
    createdAt := 0
    processingTime := none
    toxicityScore := none
    reviewReason := none
    category := "general"
    completedAt := none }

/-- When the deny list misses, the keyword search inside moderateContent
comes back empty. -/
theorem find?_keyword_eq_none {content : String} (h : denyHit content = false) :
    blockedKeywords.find? (fun keyword => strOccursIn keyword (lowerStr content)) = none := by
  simp only [denyHit, List.any_eq_false] at h
  exact List.find?_eq_none.mpr h

/-- With no deny-list hit, a failed external call produces the degraded
needs-review decision of the catch branch. -/
theorem moderateContent_api_down (content : String) (h : denyHit content = false) :
    moderateContent content none =
      ({ status := "needs_review"
         moderationDetails := "Failed to analyze content with Perspective API"
         toxicityScore := none
         reviewReason := some "API error, requires human review" }, true) := by
  simp only [moderateContent, find?_keyword_eq_none h]

/-- With no deny-list hit and a successful external call, moderateContent
reduces to the threshold chain on the maximum sub-score. -/
theorem moderateContent_scored (content : String) (scores : Scores)
    (h : denyHit content = false) :
    moderateContent content (some scores) =
      (let maxScore := max scores.toxicity (max scores.insult scores.profanity)
       let tail := "toxicity=" ++ fixed2 scores.toxicity ++ ", insult=" ++
         fixed2 scores.insult ++ ", profanity=" ++ fixed2 scores.profanity
       if maxScore > 4 / 5 then
        ({ status := "rejected"
           moderationDetails := "Content rejected due to high scores: " ++ tail
           toxicityScore := some maxScore
           reviewReason := none }, true)
       else if maxScore ≥ 1 / 2 then
        ({ status := "needs_review"
           moderationDetails := "Content flagged for human review: " ++ tail
           toxicityScore := some maxScore
           reviewReason := some "Borderline content requiring human evaluation" }, true)
       else
        ({ status := "approved"
           moderationDetails := "Content approved: " ++ tail
           toxicityScore := some maxScore
           reviewReason := none }, true)) := by
  simp only [moderateContent, find?_keyword_eq_none h]

/-- applyUpdate never touches the identity field. -/
theorem applyUpdate_id (p : Post) (status workerId : String)
    (md : Option String) (pt : Option Nat) (ts : Option ℚ) (rr : Option String)
    (now : Nat) :
    (applyUpdate p status workerId md pt ts rr now).id = p.id := rfl

/-- applyUpdate writes exactly the requested status. -/
theorem applyUpdate_status (p : Post) (status workerId : String)
    (md : Option String) (pt : Option Nat) (ts : Option ℚ) (rr : Option String)
    (now : Nat) :
    (applyUpdate p status workerId md pt ts rr now).status = status := rfl

/-- An update pass never changes the sequence of record identities. -/
theorem updatePostStatus_map_id (postId status workerId : String)
    (md : Option String) (pt : Option Nat) (ts : Option ℚ) (rr : Option String)
    (now : Nat) (posts : List Post) :
    (updatePostStatus postId status workerId md pt ts rr now posts).map Post.id =
      posts.map Post.id := by
  induction posts with
  | nil => rfl
  | cons p ps ih =>
    simp only [updatePostStatus]
    split
    · simp [applyUpdate]
    · simp [ih]

/-- Updating a present id rewrites the first matching record through
applyUpdate, as seen through point lookup. -/
theorem lookupPost_update {posts : List Post} {postId : String} {p : Post}
    (h : lookupPost posts postId = some p) (status workerId : String)
    (md : Option String) (pt : Option Nat) (ts : Option ℚ) (rr : Option String)
    (now : Nat) :
    lookupPost (updatePostStatus postId status workerId md pt ts rr now posts)
        postId = some (applyUpdate p status workerId md pt ts rr now) := by
  induction posts with
  | nil => exact absurd h (by simp [lookupPost])
  | cons q ps ih =>
    by_cases hq : (q.id == postId) = true
    · have hfind : List.find? (fun r => r.id == postId) (q :: ps) = some q :=
        List.find?_cons_of_pos _ hq
      have hpq : q = p := by
        simp only [lookupPost] at h
        rw [hfind] at h
        exact Option.some.inj h
      subst hpq
      simp only [updatePostStatus]
      rw [if_pos hq]
      have hid : ((applyUpdate q status workerId md pt ts rr now).id == postId) = true := by
        rw [applyUpdate_id]; exact hq
      simp only [lookupPost]
      exact List.find?_cons_of_pos _ hid
    · have hrec : lookupPost ps postId = some p := by
        have hstep : List.find? (fun r => r.id == postId) (q :: ps) =
            List.find? (fun r => r.id == postId) ps := List.find?_cons_of_neg _ hq
        simp only [lookupPost] at h ⊢
        rwa [hstep] at h
      simp only [updatePostStatus]
      rw [if_neg hq]
      simp only [lookupPost]
      have hstep2 : List.find? (fun r => r.id == postId)
            (q :: updatePostStatus postId status workerId md pt ts rr now ps) =
          List.find? (fun r => r.id == postId)
            (updatePostStatus postId status workerId md pt ts rr now ps) :=
        List.find?_cons_of_neg _ hq
      rw [hstep2]
      exact ih hrec

/-- When no record carries the id, updatePostStatus performs no write and
returns the store untouched. -/
theorem updatePostStatus_not_found {posts : List Post} {postId : String}
    (h : lookupPost posts postId = none) (status workerId : String)
    (md : Option String) (pt : Option Nat) (ts : Option ℚ) (rr : Option String)
    (now : Nat) :
    updatePostStatus postId status workerId md pt ts rr now posts = posts := by
  induction posts with
  | nil => rfl
  | cons q ps ih =>
    by_cases hq : (q.id == postId) = true
    · exfalso
      have hfind : List.find? (fun r => r.id == postId) (q :: ps) = some q :=
        List.find?_cons_of_pos _ hq
      simp only [lookupPost] at h
      rw [hfind] at h
      exact Option.noConfusion h
    · have hrec : lookupPost ps postId = none := by
        have hstep : List.find? (fun r => r.id == postId) (q :: ps) =
            List.find? (fun r => r.id == postId) ps := List.find?_cons_of_neg _ hq
        simp only [lookupPost] at h ⊢
        rwa [hstep] at h
      simp only [updatePostStatus]
      rw [if_neg hq, ih hrec]

/-- Claim C3: content containing a configured blocked term under
case-insensitive comparison is classified rejected with a null score, the
external scoring service is never called, and the result is independent of
scoring-service availability. -/
theorem c3_denylist_short_circuit (content : String)
    (apiResult apiResult' : Option Scores) (h : denyHit content = true) :
    (moderateContent content apiResult).1.status = "rejected" ∧
    (moderateContent content apiResult).1.toxicityScore = none ∧
    (moderateContent content apiResult).2 = false ∧
    moderateContent content apiResult = moderateContent content apiResult' := by
  cases hf : blockedKeywords.find? (fun keyword => strOccursIn keyword (lowerStr content)) with
  | none =>
    exfalso
    rw [List.find?_eq_none] at hf
    simp only [denyHit, List.any_eq_true] at h
    obtain ⟨k, hk, hocc⟩ := h
    exact hf k hk hocc
  | some k =>
    simp only [moderateContent, hf]
    exact ⟨trivial, trivial, trivial, trivial⟩

/-- Witness for C3 at concrete content holding a blocked keyword in mixed
case, against both an available and an unavailable scoring service. -/
theorem c3_denylist_short_circuit_witness :
    (moderateContent "Fuck this noise" (some ⟨0, 0, 0⟩)).1.status = "rejected" ∧
    (moderateContent "Fuck this noise" (some ⟨0, 0, 0⟩)).1.toxicityScore = none ∧
    (moderateContent "Fuck this noise" (some ⟨0, 0, 0⟩)).2 = false ∧
    moderateContent "Fuck this noise" (some ⟨0, 0, 0⟩) =
      moderateContent "Fuck this noise" none :=
  c3_denylist_short_circuit "Fuck this noise" (some ⟨0, 0, 0⟩) none (by decide)

/-- Claim C2, counterexample: at maxScore 0.6 the code does flag
needs_review, but the review reason it records is capitalized and therefore
differs from the exact string the claim specifies. -/
theorem c2_reviewReason_literal_fails :
    (moderateContent "great post" (some ⟨3 / 5, 0, 0⟩)).1.status = "needs_review" ∧
    (moderateContent "great post" (some ⟨3 / 5, 0, 0⟩)).1.reviewReason ≠
      some "borderline content requiring human evaluation" := by
  rw [moderateContent_scored "great post" ⟨3 / 5, 0, 0⟩ (by decide)]
  rw [if_neg (by norm_num [max_def]), if_pos (by norm_num [max_def])]
  exact ⟨rfl, by decide⟩

/-- Claim C2 (amended): with the deny list passed and a successful scoring
call, classification is determined solely by the maximum of the three
sub-scores: above 0.8 rejected, from 0.5 to 0.8 inclusive needs_review with
review reason Borderline content requiring human evaluation (capital B),
below 0.5 approved. -/
theorem c2_threshold_policy (content : String) (scores : Scores)
    (h : denyHit content = false) :
    (max scores.toxicity (max scores.insult scores.profanity) > 4 / 5 →
      (moderateContent content (some scores)).1.status = "rejected" ∧
      (moderateContent content (some scores)).1.toxicityScore =
        some (max scores.toxicity (max scores.insult scores.profanity))) ∧
    (1 / 2 ≤ max scores.toxicity (max scores.insult scores.profanity) →
      max scores.toxicity (max scores.insult scores.profanity) ≤ 4 / 5 →
      (moderateContent content (some scores)).1.status = "needs_review" ∧
      (moderateContent content (some scores)).1.reviewReason =
        some "Borderline content requiring human evaluation" ∧
      (moderateContent content (some scores)).1.toxicityScore =
        some (max scores.toxicity (max scores.insult scores.profanity))) ∧
    (max scores.toxicity (max scores.insult scores.profanity) < 1 / 2 →
      (moderateContent content (some scores)).1.status = "approved" ∧
      (moderateContent content (some scores)).1.toxicityScore =
        some (max scores.toxicity (max scores.insult scores.profanity))) := by
  rw [moderateContent_scored content scores h]
  refine ⟨fun hgt => ?_, fun hge hle => ?_, fun hlt => ?_⟩
  · rw [if_pos hgt]
    exact ⟨rfl, rfl⟩
  · rw [if_neg (not_lt.mpr hle), if_pos hge]
    exact ⟨rfl, rfl, rfl⟩
  · rw [if_neg (not_lt.mpr (le_of_lt (lt_of_lt_of_le hlt (by norm_num)))),
      if_neg (not_le.mpr hlt)]
    exact ⟨rfl, rfl⟩

/-- Witness for C2 at the boundary literals of the claim: maxScore 0.80
flags needs_review, 0.8000001 rejects, 0.4999 approves. -/
theorem c2_threshold_policy_witness :
    (moderateContent "great post" (some ⟨4 / 5, 0, 0⟩)).1.status = "needs_review" ∧
    (moderateContent "great post" (some ⟨8000001 / 10000000, 0, 0⟩)).1.status = "rejected" ∧
    (moderateContent "great post" (some ⟨4999 / 10000, 0, 0⟩)).1.status = "approved" :=
  ⟨((c2_threshold_policy "great post" ⟨4 / 5, 0, 0⟩ (by decide)).2.1
      (by norm_num [max_def]) (by norm_num [max_def])).1,
   ((c2_threshold_policy "great post" ⟨8000001 / 10000000, 0, 0⟩ (by decide)).1
      (by norm_num [max_def])).1,
   ((c2_threshold_policy "great post" ⟨4999 / 10000, 0, 0⟩ (by decide)).2.2
      (by norm_num [max_def])).1⟩

/-- Claim C6, counterexample: with the deny list passed and the scoring
call failing, the code does degrade to needs_review, but the review reason
it records differs from the exact string the claim specifies. -/
theorem c6_reviewReason_literal_fails :
    (moderateContent "great post" none).1.status = "needs_review" ∧
    (moderateContent "great post" none).1.reviewReason ≠
      some "scoring unavailable, requires human review" := by
  rw [moderateContent_api_down "great post" (by decide)]
  exact ⟨rfl, by decide⟩

/-- Claim C6 (amended): when the deny list passes and the external scoring
call fails, the decision is needs_review with a null score and review
reason API error, requires human review; with the store writes succeeding,
the job record is written to needs_review and the message is still
acknowledged. -/
theorem c6_api_failure_degrades (content : String) (posts : List Post)
    (msgId workerId : String) (t1 dur : Nat) (p : Post)
    (hdeny : denyHit content = false) (hid : lookupPost posts msgId = some p) :
    (moderateContent content none).1.status = "needs_review" ∧
    (moderateContent content none).1.toxicityScore = none ∧
    (moderateContent content none).1.reviewReason =
      some "API error, requires human review" ∧
    (handleMessage posts msgId content workerId none true true t1 dur).2 = true ∧
    (lookupPost (handleMessage posts msgId content workerId none true true t1 dur).1
        msgId).map Post.status = some "needs_review" := by
  have hm := moderateContent_api_down content hdeny
  refine ⟨by rw [hm], by rw [hm], by rw [hm], rfl, ?_⟩
  have h1 := lookupPost_update hid "processing" workerId none none none none t1
  simp only [handleMessage, hm, if_true]
  rw [lookupPost_update h1]
  rfl

/-- Witness for C6: a concrete clean post degraded by an unavailable
scoring service. -/
theorem c6_api_failure_degrades_witness :
    (moderateContent "this is great" none).1.status = "needs_review" ∧
    (moderateContent "this is great" none).1.toxicityScore = none ∧
    (moderateContent "this is great" none).1.reviewReason =
      some "API error, requires human review" ∧
    (handleMessage [samplePost] "job-1" "this is great" "worker-1" none true true 0 7).2 = true ∧
    (lookupPost (handleMessage [samplePost] "job-1" "this is great" "worker-1" none
        true true 0 7).1 "job-1").map Post.status = some "needs_review" :=
  c6_api_failure_degrades "this is great" [samplePost] "job-1" "worker-1" 0 7
    samplePost (by decide) (by decide)

/-- Claim C5, counterexample: with the durable write of the classification
outcome failing, the handler still acknowledges the message and the store
keeps no record of the outcome, retaining the processing status. -/
theorem c5_ack_despite_write_failure :
    (handleMessage [samplePost] "job-1" "this is great" "worker-1" none true false 0 7).2 = true ∧
    (handleMessage [samplePost] "job-1" "this is great" "worker-1" none
        true false 0 7).1.map Post.status = ["processing"] := by
  decide

/-- Claim C5 (amended): updatePostStatus catches store-write failures
internally, so the consume handler acknowledges every message
unconditionally; when the outcome write fails, the store is left exactly as
it was after the processing write, with no durable record of the
classification outcome. -/
theorem c5_handler_always_acks (posts : List Post)
    (msgId msgContent workerId : String) (apiResult : Option Scores)
    (writeOk1 writeOk2 : Bool) (t1 dur : Nat) :
    (handleMessage posts msgId msgContent workerId apiResult writeOk1 writeOk2
        t1 dur).2 = true ∧
    handleMessage posts msgId msgContent workerId apiResult writeOk1 false t1 dur =
      ((if writeOk1 then
          updatePostStatus msgId "processing" workerId none none none none t1 posts
        else posts), true) :=
  ⟨rfl, rfl⟩

/-- An update pass preserves the half of the completedAt invariant that the
code maintains: a record left with terminal status has completedAt set. -/
theorem updatePostStatus_preserves_term_inv (postId status workerId : String)
    (md : Option String) (pt : Option Nat) (ts : Option ℚ) (rr : Option String)
    (now : Nat) :
    ∀ posts : List Post,
      (∀ p ∈ posts, p.status = "approved" ∨ p.status = "rejected" →
        p.completedAt.isSome = true) →
      ∀ p ∈ updatePostStatus postId status workerId md pt ts rr now posts,
        p.status = "approved" ∨ p.status = "rejected" →
        p.completedAt.isSome = true := by
  intro posts
  induction posts with
  | nil => intro _ p hp; exact absurd hp (List.not_mem_nil p)
  | cons r rs ih =>
    intro hInv p hp
    simp only [updatePostStatus] at hp
    by_cases hr : (r.id == postId) = true
    · rw [if_pos hr] at hp
      rcases List.mem_cons.mp hp with hEq | hMem
      · subst hEq
        intro hst
        rw [applyUpdate_status] at hst
        have hcond : (status == "approved" || status == "rejected") = true := by
          rcases hst with h1 | h1 <;> simp [h1]
        simp [applyUpdate, hcond]
      · exact hInv p (List.mem_cons_of_mem r hMem)
    · rw [if_neg hr] at hp
      rcases List.mem_cons.mp hp with hEq | hMem
      · subst hEq
        exact hInv p (List.mem_cons_self p rs)
      · exact ih (fun x hx hsx => hInv x (List.mem_cons_of_mem r hx) hsx) p hMem

/-- A write of a non-terminal status never touches any completedAt field in
the store: stale completion stamps are preserved, not cleared. -/
theorem updatePostStatus_keeps_completedAt (postId status workerId : String)
    (md : Option String) (pt : Option Nat) (ts : Option ℚ) (rr : Option String)
    (now : Nat) (h1 : status ≠ "approved") (h2 : status ≠ "rejected")
    (posts : List Post) :
    (updatePostStatus postId status workerId md pt ts rr now posts).map
        Post.completedAt = posts.map Post.completedAt := by
  have hcond : (status == "approved" || status == "rejected") = false := by
    simp [h1, h2]
  induction posts with
  | nil => rfl
  | cons r rs ih =>
    simp only [updatePostStatus]
    by_cases hr : (r.id == postId) = true
    · rw [if_pos hr]
      simp [applyUpdate, hcond]
    · rw [if_neg hr]
      simp [ih]

/-- Every record in the store after a submission is either an old record or
the newly created pending record with no completion stamp. -/
theorem submit_created_mem (req : SubmitReq) (newId : String) (now2 : Nat)
    (ch : Bool) (posts2 : List Post) :
    ∀ q ∈ (submit req newId now2 true ch posts2).2.1,
      q ∈ posts2 ∨ (q.status = "pending" ∧ q.completedAt = none) := by
  intro q hq
  by_cases hv : (truthyStr req.title && truthyStr req.content && truthyStr req.author) = true
  · simp only [submit] at hq
    rw [if_neg (by simp [hv]), if_neg (by simp)] at hq
    rcases List.mem_append.mp hq with hmem | hmem
    · exact Or.inl hmem
    · rcases List.mem_singleton.mp hmem with rfl
      exact Or.inr ⟨rfl, rfl⟩
  · have hv' : (truthyStr req.title && truthyStr req.content && truthyStr req.author) = false := by
      simpa using hv
    simp only [submit] at hq
    rw [if_pos (by simp [hv'])] at hq
    exact Or.inl hq

/-- Claim C1, counterexample: after a job reaches approved and a redelivery
writes processing over it, the record has status processing while
completedAt is still set, so the iff invariant fails and completedAt is not
restored to null. -/
theorem c1_completedAt_iff_fails :
    ∃ p ∈ updatePostStatus "job-1" "processing" "worker-2" none none none none 9
        (updatePostStatus "job-1" "approved" "worker-1" none none none none 5
          [samplePost]),
      p.completedAt.isSome = true ∧ p.status ≠ "approved" ∧ p.status ≠ "rejected" := by
  decide

/-- Claim C1 (amended): completedAt is null at creation and is set by every
write of approved or rejected, so terminal status always implies a non-null
completedAt; but updatePostStatus never clears the field, so a later write
of a non-terminal status such as processing preserves the stale completedAt
instead of restoring it to null. -/
theorem c1_completedAt_forward_only (postId status workerId : String)
    (md : Option String) (pt : Option Nat) (ts : Option ℚ) (rr : Option String)
    (now : Nat) (posts : List Post)
    (hInv : ∀ p ∈ posts, p.status = "approved" ∨ p.status = "rejected" →
      p.completedAt.isSome = true) :
    (∀ p ∈ updatePostStatus postId status workerId md pt ts rr now posts,
        p.status = "approved" ∨ p.status = "rejected" →
        p.completedAt.isSome = true) ∧
    (status ≠ "approved" → status ≠ "rejected" →
      (updatePostStatus postId status workerId md pt ts rr now posts).map
          Post.completedAt = posts.map Post.completedAt) ∧
    (∀ (req : SubmitReq) (newId : String) (now2 : Nat) (ch : Bool)
        (posts2 : List Post), ∀ q ∈ (submit req newId now2 true ch posts2).2.1,
          q ∈ posts2 ∨ (q.status = "pending" ∧ q.completedAt = none)) :=
  ⟨updatePostStatus_preserves_term_inv postId status workerId md pt ts rr now posts hInv,
   fun h1 h2 =>
     updatePostStatus_keeps_completedAt postId status workerId md pt ts rr now h1 h2 posts,
   fun req newId now2 ch posts2 => submit_created_mem req newId now2 ch posts2⟩

/-- Witness for C1 at a concrete store holding one pending record. -/
theorem c1_completedAt_forward_only_witness :
    (∀ p ∈ updatePostStatus "job-1" "processing" "worker-1" none none none none 4
        [samplePost],
        p.status = "approved" ∨ p.status = "rejected" →
        p.completedAt.isSome = true) ∧
    ("processing" ≠ "approved" → "processing" ≠ "rejected" →
      (updatePostStatus "job-1" "processing" "worker-1" none none none none 4
          [samplePost]).map Post.completedAt = [samplePost].map Post.completedAt) ∧
    (∀ (req : SubmitReq) (newId : String) (now2 : Nat) (ch : Bool)
        (posts2 : List Post), ∀ q ∈ (submit req newId now2 true ch posts2).2.1,
          q ∈ posts2 ∨ (q.status = "pending" ∧ q.completedAt = none)) :=
  c1_completedAt_forward_only "job-1" "processing" "worker-1" none none none none 4
    [samplePost] (by decide)

/-- Claim C4: updatePostStatus writes the new status unconditionally for a
present id, so the first update shows the first status, the second update
overwrites it with the second status regardless of the previous one, and
neither pass adds, removes or duplicates records. -/
theorem c4_last_writer_wins (posts : List Post) (postId s1 s2 w1 w2 : String)
    (md1 md2 : Option String) (pt1 pt2 : Option Nat) (ts1 ts2 : Option ℚ)
    (rr1 rr2 : Option String) (n1 n2 : Nat) (p : Post)
    (h : lookupPost posts postId = some p) :
    ((lookupPost (updatePostStatus postId s1 w1 md1 pt1 ts1 rr1 n1 posts)
        postId).map Post.status = some s1) ∧
    ((lookupPost (updatePostStatus postId s2 w2 md2 pt2 ts2 rr2 n2
        (updatePostStatus postId s1 w1 md1 pt1 ts1 rr1 n1 posts)) postId).map
        Post.status = some s2) ∧
    ((updatePostStatus postId s2 w2 md2 pt2 ts2 rr2 n2
        (updatePostStatus postId s1 w1 md1 pt1 ts1 rr1 n1 posts)).map Post.id =
      posts.map Post.id) ∧
    ((updatePostStatus postId s2 w2 md2 pt2 ts2 rr2 n2
        (updatePostStatus postId s1 w1 md1 pt1 ts1 rr1 n1 posts)).length =
      posts.length) ∧
    ((updatePostStatus postId s2 w2 md2 pt2 ts2 rr2 n2
        (updatePostStatus postId s1 w1 md1 pt1 ts1 rr1 n1 posts)).countP
        (fun q => q.id == postId) = posts.countP (fun q => q.id == postId)) := by
  have h1 := lookupPost_update h s1 w1 md1 pt1 ts1 rr1 n1
  have h2 := lookupPost_update h1 s2 w2 md2 pt2 ts2 rr2 n2
  have hmap : (updatePostStatus postId s2 w2 md2 pt2 ts2 rr2 n2
      (updatePostStatus postId s1 w1 md1 pt1 ts1 rr1 n1 posts)).map Post.id =
      posts.map Post.id := by
    rw [updatePostStatus_map_id, updatePostStatus_map_id]
  refine ⟨by rw [h1]; rfl, by rw [h2]; rfl, hmap, ?_, ?_⟩
  · have hlen := congrArg List.length hmap
    simpa using hlen
  · have hcnt := congrArg (List.countP (fun s => s == postId)) hmap
    simpa [List.countP_map, Function.comp] using hcnt

/-- Witness for C4: the sample job is classified approved, then a
redelivered duplicate overwrites it with processing; the store shows the
second write and still holds exactly one record. -/
theorem c4_last_writer_wins_witness :
    ((lookupPost (updatePostStatus "job-1" "approved" "worker-1" none none none none 5
        [samplePost]) "job-1").map Post.status = some "approved") ∧
    ((lookupPost (updatePostStatus "job-1" "processing" "worker-2" none none none none 9
        (updatePostStatus "job-1" "approved" "worker-1" none none none none 5
          [samplePost])) "job-1").map Post.status = some "processing") ∧
    ((updatePostStatus "job-1" "processing" "worker-2" none none none none 9
        (updatePostStatus "job-1" "approved" "worker-1" none none none none 5
          [samplePost])).map Post.id = [samplePost].map Post.id) ∧
    ((updatePostStatus "job-1" "processing" "worker-2" none none none none 9
        (updatePostStatus "job-1" "approved" "worker-1" none none none none 5
          [samplePost])).length = [samplePost].length) ∧
    ((updatePostStatus "job-1" "processing" "worker-2" none none none none 9
        (updatePostStatus "job-1" "approved" "worker-1" none none none none 5
          [samplePost])).countP (fun q => q.id == "job-1") =
      [samplePost].countP (fun q => q.id == "job-1")) :=
  c4_last_writer_wins [samplePost] "job-1" "approved" "processing" "worker-1"
    "worker-2" none none none none none none none none 5 9 samplePost (by decide)

/-- Claim C9: an update pass preserves id, title, content, author,
category, server and createdAt of every record, leaves records with other
ids entirely unchanged, and preserves the sequence of record ids, so no
record is ever removed. -/
theorem c9_update_frame (postId status workerId : String)
    (md : Option String) (pt : Option Nat) (ts : Option ℚ) (rr : Option String)
    (now : Nat) (posts : List Post) :
    ((updatePostStatus postId status workerId md pt ts rr now posts).map Post.id =
      posts.map Post.id) ∧
    List.Forall₂ (fun p q =>
        q.id = p.id ∧ q.title = p.title ∧ q.content = p.content ∧
        q.author = p.author ∧ q.category = p.category ∧ q.server = p.server ∧
        q.createdAt = p.createdAt ∧ (p.id ≠ postId → q = p))
      posts (updatePostStatus postId status workerId md pt ts rr now posts) := by
  refine ⟨updatePostStatus_map_id postId status workerId md pt ts rr now posts, ?_⟩
  induction posts with
  | nil => exact List.Forall₂.nil
  | cons p ps ih =>
    simp only [updatePostStatus]
    by_cases hp : (p.id == postId) = true
    · rw [if_pos hp]
      refine List.Forall₂.cons ⟨rfl, rfl, rfl, rfl, rfl, rfl, rfl, fun hne => ?_⟩ ?_
      · exact absurd (by simpa using hp) hne
      · refine List.forall₂_same.mpr ?_
        intro x _
        exact ⟨rfl, rfl, rfl, rfl, rfl, rfl, rfl, fun _ => rfl⟩
    · rw [if_neg hp]
      exact List.Forall₂.cons ⟨rfl, rfl, rfl, rfl, rfl, rfl, rfl, fun _ => rfl⟩ ih

/-- Witness for C9 at a concrete one-record store. -/
theorem c9_update_frame_witness :
    ((updatePostStatus "job-1" "approved" "worker-1" none none none none 5
        [samplePost]).map Post.id = [samplePost].map Post.id) ∧
    List.Forall₂ (fun p q =>
        q.id = p.id ∧ q.title = p.title ∧ q.content = p.content ∧
        q.author = p.author ∧ q.category = p.category ∧ q.server = p.server ∧
        q.createdAt = p.createdAt ∧ (p.id ≠ "job-1" → q = p))
      [samplePost]
      (updatePostStatus "job-1" "approved" "worker-1" none none none none 5
        [samplePost]) :=
  c9_update_frame "job-1" "approved" "worker-1" none none none none 5 [samplePost]

/-- Claim C10: a message whose job id has no record in the store leads to
no write at all, with the store left exactly as it was and no record
created, and the handler still acknowledges the message. -/
theorem c10_missing_id_noop (posts : List Post)
    (msgId msgContent workerId status wId2 : String) (apiResult : Option Scores)
    (w1 w2 : Bool) (t1 dur : Nat) (md : Option String) (pt : Option Nat)
    (ts : Option ℚ) (rr : Option String) (now : Nat)
    (h : lookupPost posts msgId = none) :
    updatePostStatus msgId status wId2 md pt ts rr now posts = posts ∧
    handleMessage posts msgId msgContent workerId apiResult w1 w2 t1 dur =
      (posts, true) := by
  refine ⟨updatePostStatus_not_found h status wId2 md pt ts rr now, ?_⟩
  simp [handleMessage, updatePostStatus_not_found h]

/-- Witness for C10: a message pointing at an id absent from the store. -/
theorem c10_missing_id_noop_witness :
    updatePostStatus "job-404" "processing" "worker-1" none none none none 3
      [samplePost] = [samplePost] ∧
    handleMessage [samplePost] "job-404" "clean text" "worker-1" none true true 0 7 =
      ([samplePost], true) :=
  c10_missing_id_noop [samplePost] "job-404" "clean text" "worker-1" "processing"
    "worker-1" none true true 0 7 none none none none 3 (by decide)

/-- Claim C7, counterexample: a request whose title field is present but
empty is rejected with the validation error and creates nothing, although
the claim as stated promises creation whenever all three fields are
present. -/
theorem c7_empty_title_rejected :
    submit ⟨some "", some "this is great", some "alice", none, none⟩ "id-1" 0
        true true [] =
      (SubmitResult.badRequest "Title, content, and author are required", [], false) := by
  decide

/-- Claim C7 (amended): a submission missing any of title, content or
author, or carrying an empty string there, gets the validation error with
no record created and nothing published; when all three are present and
non-empty and the store write succeeds, a record with the fresh id and
status pending is created, persisted and returned, and when the id is fresh
the store holds exactly one record with it. -/
theorem c7_submit_validation (req : SubmitReq) (newId : String) (now : Nat)
    (ch : Bool) (posts : List Post) :
    ((truthyStr req.title && truthyStr req.content && truthyStr req.author) = false →
      ∀ wOk : Bool, submit req newId now wOk ch posts =
        (SubmitResult.badRequest "Title, content, and author are required",
          posts, false)) ∧
    ((truthyStr req.title && truthyStr req.content && truthyStr req.author) = true →
      ∃ post : Post, submit req newId now true ch posts =
          (SubmitResult.created post, posts ++ [post], ch) ∧
        post.id = newId ∧ post.status = "pending" ∧ post.completedAt = none ∧
        post.title = req.title.getD "" ∧ post.content = req.content.getD "" ∧
        post.author = req.author.getD "" ∧
        (newId ∉ posts.map Post.id →
          (posts ++ [post]).countP (fun q => q.id == newId) = 1)) := by
  constructor
  · intro hv wOk
    simp only [submit]
    rw [if_pos (by simp [hv])]
  · intro hv
    refine ⟨mkPost req newId now, ?_, rfl, rfl, rfl, rfl, rfl, rfl, ?_⟩
    · simp only [submit]
      rw [if_neg (by simp [hv]), if_neg (by simp)]
    · intro hnot
      rw [List.countP_append]
      have h0 : posts.countP (fun q => q.id == newId) = 0 := by
        rw [List.countP_eq_zero]
        intro a ha hab
        exact hnot (List.mem_map.mpr ⟨a, ha, by simpa using hab⟩)
      rw [h0]
      simp [mkPost, List.countP_cons]

/-- Witness for C7: one missing-field request rejected, one complete
request created as pending. -/
theorem c7_submit_validation_witness :
    (submit ⟨none, some "this is great", some "alice", none, none⟩ "id-1" 0
        true true [] =
      (SubmitResult.badRequest "Title, content, and author are required",
        [], false)) ∧
    (∃ post : Post, submit ⟨some "t", some "this is great", some "alice", none,
        none⟩ "id-2" 3 true true [samplePost] =
        (SubmitResult.created post, [samplePost] ++ [post], true) ∧
      post.id = "id-2" ∧ post.status = "pending" ∧ post.completedAt = none ∧
      post.title = (some "t").getD "" ∧
      post.content = (some "this is great").getD "" ∧
      post.author = (some "alice").getD "" ∧
      ("id-2" ∉ [samplePost].map Post.id →
        ([samplePost] ++ [post]).countP (fun q => q.id == "id-2") = 1)) :=
  ⟨(c7_submit_validation ⟨none, some "this is great", some "alice", none, none⟩
      "id-1" 0 true []).1 (by decide) true,
   (c7_submit_validation ⟨some "t", some "this is great", some "alice", none, none⟩
      "id-2" 3 true [samplePost]).2 (by decide)⟩

/-- Claim C8: a valid submission made while the queue channel is
unavailable is still persisted as a pending record with its full content
retained, nothing published, and the request succeeding. -/
theorem c8_persist_when_queue_down (req : SubmitReq) (newId : String)
    (now : Nat) (posts : List Post) (ht : truthyStr req.title = true)
    (hc : truthyStr req.content = true) (ha : truthyStr req.author = true) :
    ∃ post : Post, submit req newId now true false posts =
        (SubmitResult.created post, posts ++ [post], false) ∧
      post.status = "pending" ∧ post.title = req.title.getD "" ∧
      post.content = req.content.getD "" ∧ post.author = req.author.getD "" ∧
      post ∈ (submit req newId now true false posts).2.1 := by
  have heq : submit req newId now true false posts =
      (SubmitResult.created (mkPost req newId now),
        posts ++ [mkPost req newId now], false) := by
    simp only [submit]
    rw [if_neg (by simp [ht, hc, ha]), if_neg (by simp)]
  refine ⟨mkPost req newId now, heq, rfl, rfl, rfl, rfl, ?_⟩
  rw [heq]
  exact List.mem_append_right _ (List.mem_singleton_self _)

/-- Witness for C8: a concrete valid submission with the channel down. -/
theorem c8_persist_when_queue_down_witness :
    ∃ post : Post, submit ⟨some "t", some "this is great", some "alice", none,
        none⟩ "id-3" 4 true false [] =
        (SubmitResult.created post, [] ++ [post], false) ∧
      post.status = "pending" ∧ post.title = (some "t").getD "" ∧
      post.content = (some "this is great").getD "" ∧
      post.author = (some "alice").getD "" ∧
      post ∈ (submit ⟨some "t", some "this is great", some "alice", none, none⟩
        "id-3" 4 true false []).2.1 :=
  c8_persist_when_queue_down ⟨some "t", some "this is great", some "alice", none,
    none⟩ "id-3" 4 [] (by decide) (by decide) (by decide)

end ContentModeration
